import Mathlib

/-!
Verification of the connection/broadcast subsystem of the collaborative
diagramming backend (src/Backend/main.py).

The embedding models:
  * JSON values (`Json`), Python's `json.dumps` with default separators
    (`dumps`) and `json.loads` (`loads`).  JSON numbers are modelled as
    integers: no claim under verification depends on non-integral numeric
    values, and Python floats are outside the scope of the embedding.
  * the pydantic `DrawingAction` schema check (`validateDrawingAction`),
  * `ConnectionManager` (`connect`, `disconnect`, `broadcast`) with
    WebSocket handles modelled as naturals and per-target send failure
    given by a boolean function,
  * one receive-loop iteration of the two WebSocket endpoints
    (`websocket_endpoint_step` for `/ws`, `websocket_draw_step` for
    `/ws/draw`) and the `/health` route (`health_check`),
  * the Python `for`-loop over the live connection list under concurrent
    registry mutation (`runPass`), used for the snapshot-isolation claim.
-/

set_option autoImplicit false

namespace Diagram

/-- JSON values as produced by Python's `json.loads`.  Numbers are
restricted to integers (see the file comment). -/
inductive Json where
  | null
  | bool (b : Bool)
  | num (n : Int)
  | str (s : String)
  | arr (elems : List Json)
  | obj (fields : List (String × Json))
deriving Repr

/-- Lower-case hexadecimal digit. -/
def hexDigit (n : Nat) : Char :=
  if n < 10 then Char.ofNat (48 + n) else Char.ofNat (87 + n)

/-- Four-digit lower-case hexadecimal rendering, as in Python's `\uXXXX`
string escapes. -/
def hex4 (n : Nat) : String :=
  String.mk [hexDigit (n / 4096 % 16), hexDigit (n / 256 % 16),
             hexDigit (n / 16 % 16), hexDigit (n % 16)]

/-- Escape of one character inside a JSON string, following Python's
`json.dumps` with its default `ensure_ascii=True`. -/
def escapeChar (c : Char) : String :=
  if c = '"' then "\\\""
  else if c = '\\' then "\\\\"
  else if c = '\n' then "\\n"
  else if c = '\t' then "\\t"
  else if c = '\r' then "\\r"
  else if c = Char.ofNat 8 then "\\b"
  else if c = Char.ofNat 12 then "\\f"
  else if c.toNat < 32 ∨ c.toNat > 126 then "\\u" ++ hex4 c.toNat
  else String.singleton c

/-- A JSON string literal as rendered by `json.dumps`. -/
def dumpsString (s : String) : String :=
  "\"" ++ String.join (s.data.map escapeChar) ++ "\""

mutual

/-- Python's `json.dumps` with the default separators `", "` and `": "`,
as called in `ConnectionManager.broadcast` and in the error replies of
`websocket_endpoint`. -/
def dumps : Json → String
  | Json.null => "null"
  | Json.bool b => if b then "true" else "false"
  | Json.num n => toString n
  | Json.str s => dumpsString s
  | Json.arr xs => "[" ++ dumpsItems xs ++ "]"
  | Json.obj fs => "\x7b" ++ dumpsMembers fs ++ "\x7d"

/-- Comma-separated rendering of array elements. -/
def dumpsItems : List Json → String
  | [] => ""
  | [x] => dumps x
  | x :: xs => dumps x ++ ", " ++ dumpsItems xs

/-- Comma-separated rendering of object members. -/
def dumpsMembers : List (String × Json) → String
  | [] => ""
  | [(k, v)] => dumpsString k ++ ": " ++ dumps v
  | (k, v) :: fs => dumpsString k ++ ": " ++ dumps v ++ ", " ++ dumpsMembers fs

end

/-- Key insertion with Python `dict` semantics as built by `json.loads`:
a repeated key keeps its first position but takes the latest value. -/
def insertKey : List (String × Json) → String → Json → List (String × Json)
  | [], k, v => [(k, v)]
  | (k2, v2) :: rest, k, v =>
    if k2 = k then (k2, v) :: rest else (k2, v2) :: insertKey rest k v

/-- Whitespace skipping of the JSON grammar. -/
def skipWs : List Char → List Char
  | c :: cs =>
    if c = ' ' ∨ c = '\t' ∨ c = '\n' ∨ c = '\r' then skipWs cs else c :: cs
  | [] => []

/-- Body of a JSON string literal after the opening quote, with the
single-character escapes.  `\uXXXX` escapes are not modelled; no claim
depends on them. -/
def parseStringBody : List Char → Option (String × List Char)
  | [] => none
  | '"' :: rest => some ("", rest)
  | '\\' :: e :: rest =>
    match stringEscape e with
    | none => none
    | some c =>
      match parseStringBody rest with
      | none => none
      | some (s, r) => some (String.singleton c ++ s, r)
  | c :: rest =>
    match parseStringBody rest with
    | none => none
    | some (s, r) => some (String.singleton c ++ s, r)
where
  /-- The single-character JSON escapes. -/
  stringEscape (e : Char) : Option Char :=
    if e = '"' ∨ e = '\\' ∨ e = '/' then some e
    else if e = 'n' then some '\n'
    else if e = 't' then some '\t'
    else if e = 'r' then some '\r'
    else if e = 'b' then some (Char.ofNat 8)
    else if e = 'f' then some (Char.ofNat 12)
    else none

/-- Digit string to number. -/
def digitsToNat (ds : List Char) : Nat :=
  ds.foldl (fun acc c => acc * 10 + (c.toNat - 48)) 0

/-- A JSON integer literal (fractional and exponent forms are outside
the integral number model and are rejected). -/
def parseNumberFrom (cs : List Char) : Option (Json × List Char) :=
  let (neg, cs2) := match cs with
    | '-' :: rest => (true, rest)
    | _ => (false, cs)
  let (ds, rest) := cs2.span Char.isDigit
  if ds = [] then none
  else
    match rest with
    | '.' :: _ => none
    | 'e' :: _ => none
    | 'E' :: _ => none
    | _ =>
      let n : Int := Int.ofNat (digitsToNat ds)
      some (Json.num (if neg then -n else n), rest)

mutual

/-- Recursive-descent JSON value grammar with explicit fuel;
the fuel strictly decreases on every recursive call. -/
def parseValue : Nat → List Char → Option (Json × List Char)
  | 0, _ => none
  | Nat.succ fuel, cs =>
    match skipWs cs with
    | 'n' :: 'u' :: 'l' :: 'l' :: rest => some (Json.null, rest)
    | 't' :: 'r' :: 'u' :: 'e' :: rest => some (Json.bool true, rest)
    | 'f' :: 'a' :: 'l' :: 's' :: 'e' :: rest => some (Json.bool false, rest)
    | '"' :: rest =>
      match parseStringBody rest with
      | none => none
      | some (s, r) => some (Json.str s, r)
    | '[' :: rest =>
      match skipWs rest with
      | ']' :: r2 => some (Json.arr [], r2)
      | r2 => parseItems fuel r2 []
    | c :: rest =>
      if c = Char.ofNat 123 then
        match skipWs rest with
        | r2 =>
          if r2.head? = some (Char.ofNat 125) then some (Json.obj [], r2.tail)
          else parseMembers fuel r2 []
      else if c = '-' ∨ c.isDigit then parseNumberFrom (c :: rest)
      else none
    | [] => none

/-- Array elements after the first element position. -/
def parseItems : Nat → List Char → List Json → Option (Json × List Char)
  | 0, _, _ => none
  | Nat.succ fuel, cs, acc =>
    match parseValue fuel cs with
    | none => none
    | some (v, r) =>
      match skipWs r with
      | ',' :: r2 => parseItems fuel (skipWs r2) (acc ++ [v])
      | ']' :: r2 => some (Json.arr (acc ++ [v]), r2)
      | _ => none

/-- Object members after the opening brace. -/
def parseMembers : Nat → List Char → List (String × Json) →
    Option (Json × List Char)
  | 0, _, _ => none
  | Nat.succ fuel, cs, acc =>
    match skipWs cs with
    | '"' :: rest =>
      match parseStringBody rest with
      | none => none
      | some (k, r) =>
        match skipWs r with
        | ':' :: r2 =>
          match parseValue fuel (skipWs r2) with
          | none => none
          | some (v, r3) =>
            let acc2 := insertKey acc k v
            match skipWs r3 with
            | ',' :: r4 => parseMembers fuel r4 acc2
            | c :: r4 =>
              if c = Char.ofNat 125 then some (Json.obj acc2, r4) else none
            | [] => none
        | _ => none
    | _ => none

end

/-- Python's `json.loads`: parse one JSON document, requiring that only
whitespace follows it. -/
def loads (s : String) : Option Json :=
  match parseValue (s.data.length + 2) s.data with
  | none => none
  | some (j, rest) => if skipWs rest = [] then some j else none

/-- The validated event value of the pydantic model `DrawingAction`
(numbers as integers, see the file comment).  `prevX`/`prevY` default to
`None`, `color` to `"#000000"`, `lineWidth` to `2`; `type`, `x`, `y` and
`timestamp` are required. -/
structure DrawingAction where
  type : String
  x : Int
  y : Int
  prevX : Option Int
  prevY : Option Int
  color : String
  lineWidth : Int
  timestamp : Int
deriving DecidableEq, Repr

/-- First value bound to a key in a parsed object.  `insertKey` keeps
keys unique, so this is the Python `dict` lookup. -/
def getField : List (String × Json) → String → Option Json
  | [], _ => none
  | (k2, v) :: rest, k => if k2 = k then some v else getField rest k

/-- A required string field. -/
def reqStr : Option Json → Option String
  | some (Json.str s) => some s
  | _ => none

/-- A required numeric field. -/
def reqNum : Option Json → Option Int
  | some (Json.num n) => some n
  | _ => none

/-- An optional numeric field defaulting to `None` (absent or `null`
gives `none`; a present non-numeric value is a validation error). -/
def optNumField : Option Json → Option (Option Int)
  | none => some none
  | some Json.null => some none
  | some (Json.num n) => some (some n)
  | _ => none

/-- An optional string field with a default. -/
def optStrField (dflt : String) : Option Json → Option String
  | none => some dflt
  | some (Json.str s) => some s
  | _ => none

/-- An optional integer field with a default. -/
def optIntField (dflt : Int) : Option Json → Option Int
  | none => some dflt
  | some (Json.num n) => some n
  | _ => none

/-- The schema check `DrawingAction(**drawing_data)` performs: a
non-object payload or a missing/wrong-typed required field raises, an
absent optional field takes its declared default.  Returns the validated
event, or `none` for a validation error. -/
def validateDrawingAction : Json → Option DrawingAction
  | Json.obj fields =>
    (reqStr (getField fields "type")).bind fun t =>
    (reqNum (getField fields "x")).bind fun x =>
    (reqNum (getField fields "y")).bind fun y =>
    (optNumField (getField fields "prevX")).bind fun px =>
    (optNumField (getField fields "prevY")).bind fun py =>
    (optStrField "#000000" (getField fields "color")).bind fun c =>
    (optIntField 2 (getField fields "lineWidth")).bind fun lw =>
    (reqNum (getField fields "timestamp")).bind fun ts =>
    some { type := t, x := x, y := y, prevX := px, prevY := py,
           color := c, lineWidth := lw, timestamp := ts }
  | _ => none

/-- The `ConnectionManager` state: its `active_connections` list, with
WebSocket handles modelled as naturals. -/
structure ManagerState where
  active_connections : List Nat
deriving DecidableEq, Repr

/-- The method `ConnectionManager.connect` (after the transport accept): append the
new connection to the list. -/
def connect (s : ManagerState) (websocket : Nat) : ManagerState :=
  { active_connections := s.active_connections ++ [websocket] }

/-- The method `ConnectionManager.disconnect`: remove the connection if present
(Python `list.remove` drops the first occurrence), otherwise do
nothing. -/
def disconnect (s : ManagerState) (websocket : Nat) : ManagerState :=
  if websocket ∈ s.active_connections then
    { active_connections := s.active_connections.erase websocket }
  else s

/-- The `for` loop of `ConnectionManager.broadcast`: walk the connection
list in order; skip the sender; a send that raises is logged and the
connection collected for removal, a send that succeeds delivers
`message_str`.  Returns the deliveries and the `disconnected` list, both
in traversal order.  `fails c = true` models `connection.send_text`
raising for `c`. -/
def sendPass (sender : Option Nat) (fails : Nat → Bool) (message_str : String) :
    List Nat → List (Nat × String) × List Nat
  | [] => ([], [])
  | connection :: rest =>
    let r := sendPass sender fails message_str rest
    if some connection = sender then r
    else if fails connection then (r.1, connection :: r.2)
    else ((connection, message_str) :: r.1, r.2)

/-- Outcome of `ConnectionManager.broadcast`: the deliveries made and
the manager state when the call returns. -/
structure BroadcastResult where
  sent : List (Nat × String)
  state : ManagerState
deriving DecidableEq, Repr

/-- The method `ConnectionManager.broadcast`: return at once on an empty list;
otherwise serialize the message once with `json.dumps`, attempt a send
to every connection other than the sender, and only after the loop
remove every connection whose send failed. -/
def broadcast (s : ManagerState) (message : Json) (sender : Option Nat)
    (fails : Nat → Bool) : BroadcastResult :=
  if s.active_connections = [] then { sent := [], state := s }
  else
    let message_str := dumps message
    let r := sendPass sender fails message_str s.active_connections
    { sent := r.1, state := r.2.foldl disconnect s }

/-- The `/health` route response:
`{"status": "healthy", "active_connections": len(manager.active_connections)}`. -/
def health_check (s : ManagerState) : Json :=
  Json.obj [("status", Json.str "healthy"),
            ("active_connections", Json.num (Int.ofNat s.active_connections.length))]

/-- What one receive-loop iteration of an endpoint produced: the frames
sent back to the origin, the deliveries to peers, and the manager state
afterwards. -/
structure StepResult where
  toOrigin : List String
  sent : List (Nat × String)
  state : ManagerState
deriving DecidableEq, Repr

/-- The serialized reply `json.dumps({"error": "Invalid JSON format"})`. -/
def errorInvalidJSON : String :=
  dumps (Json.obj [("error", Json.str "Invalid JSON format")])

/-- The serialized reply `json.dumps({"error": "Error processing drawing data"})`. -/
def errorProcessing : String :=
  dumps (Json.obj [("error", Json.str "Error processing drawing data")])

/-- One receive-loop iteration of the `/ws` endpoint
(`websocket_endpoint`) on raw frame `raw`: parse with `json.loads`
(failure replies `errorInvalidJSON` to the origin), validate with
`DrawingAction(**drawing_data)` (failure replies `errorProcessing`), and
on success broadcast the parsed payload with the origin as sender. -/
def websocket_endpoint_step (s : ManagerState) (websocket : Nat) (raw : String)
    (fails : Nat → Bool) : StepResult :=
  match loads raw with
  | none => { toOrigin := [errorInvalidJSON], sent := [], state := s }
  | some drawing_data =>
    match validateDrawingAction drawing_data with
    | none => { toOrigin := [errorProcessing], sent := [], state := s }
    | some _ =>
      let r := broadcast s drawing_data (some websocket) fails
      { toOrigin := [], sent := r.sent, state := r.state }

/-- One receive-loop iteration of the `/ws/draw` endpoint
(`websocket_draw`) on raw frame `raw`: parse with `json.loads` (failure
only prints a console warning — nothing is sent to the origin), and on
success broadcast the parsed payload with no schema validation. -/
def websocket_draw_step (s : ManagerState) (websocket : Nat) (raw : String)
    (fails : Nat → Bool) : StepResult :=
  match loads raw with
  | none => { toOrigin := [], sent := [], state := s }
  | some drawing_data =>
    let r := broadcast s drawing_data (some websocket) fails
    { toOrigin := [], sent := r.sent, state := r.state }

/-- A registry mutation another coroutine may perform while the
broadcasting coroutine is suspended in `await connection.send_text`:
`ConnectionManager.connect` appends, `ConnectionManager.disconnect`
removes if present. -/
inductive RegOp where
  | add (c : Nat)
  | remove (c : Nat)
deriving DecidableEq, Repr

/-- Apply one concurrent registry mutation to the shared
`active_connections` list. -/
def applyOp (l : List Nat) : RegOp → List Nat
  | RegOp.add c => l ++ [c]
  | RegOp.remove c => if c ∈ l then l.erase c else l

/-- Apply a burst of concurrent registry mutations in order. -/
def applyOps (l : List Nat) (ops : List RegOp) : List Nat :=
  ops.foldl applyOp l

/-- The CPython `for connection in self.active_connections:` loop under
concurrent mutation.  A list iterator is a bare index: each step reads
`lst[idx]` (the loop ends when `idx` is out of range), then, while the
send to that connection is awaited, the scheduled burst of mutations
runs on the shared list, and iteration resumes with `idx + 1` on the
mutated list.  Returns the final list and the connections the pass
visited. -/
def runPassAux : Nat → List Nat → Nat → List (List RegOp) → List Nat →
    List Nat × List Nat
  | 0, lst, _, _, visited => (lst, visited)
  | Nat.succ fuel, lst, idx, sched, visited =>
    match lst.get? idx with
    | none => (lst, visited)
    | some c =>
      runPassAux fuel (applyOps lst (sched.headD [])) (idx + 1) sched.tail
        (visited ++ [c])

/-- Total number of scheduled concurrent mutations. -/
def opsLen (sched : List (List RegOp)) : Nat :=
  (sched.map List.length).sum

/-- A whole broadcast-loop pass over the shared list `lst`, with
`sched.headD []` run during the `i`-th awaited send.  The fuel bounds
the number of loop steps: the index grows by one per step and the list
can grow by at most one element per scheduled `add`. -/
def runPass (lst : List Nat) (sched : List (List RegOp)) :
    List Nat × List Nat :=
  runPassAux (lst.length + opsLen sched + 1) lst 0 sched []

/-- Fields of a valid event that omits `color` and `lineWidth`. -/
def fieldsNoStyle : List (String × Json) :=
  [("type", Json.str "draw"), ("x", Json.num 1), ("y", Json.num 2),
   ("timestamp", Json.num 3)]

/-- Fields of an event that omits the required `timestamp`. -/
def fieldsNoTimestamp : List (String × Json) :=
  [("type", Json.str "draw"), ("x", Json.num 1), ("y", Json.num 2)]

/-- A compact raw frame (no whitespace) whose payload parses and
validates. -/
def rawCompactFrame : String :=
  "\x7b\"type\":\"draw\",\"x\":1,\"y\":2,\"timestamp\":3\x7d"

/-- The value `json.loads` gives for `rawCompactFrame`. -/
def parsedCompactFrame : Json :=
  Json.obj fieldsNoStyle

/-- A raw frame whose payload parses but misses `timestamp`. -/
def rawNoTimestamp : String :=
  "\x7b\"type\":\"draw\",\"x\":1,\"y\":2\x7d"

/-- The value `json.loads` gives for `rawNoTimestamp`. -/
def parsedNoTimestamp : Json :=
  Json.obj fieldsNoTimestamp

/-! ### Helper lemmas about the broadcast loop and registry folds -/

/-- The loop of `broadcast` delivers to exactly the connections that are
not the sender and whose send succeeds, and collects for removal exactly
the connections that are not the sender and whose send fails, in list
order. -/
theorem sendPass_eq (sender : Option Nat) (fails : Nat → Bool) (msg : String)
    (l : List Nat) :
    sendPass sender fails msg l =
      (((l.filter fun c => some c ≠ sender ∧ fails c = false).map fun c => (c, msg)),
       l.filter fun c => some c ≠ sender ∧ fails c = true) := by
  induction l with
  | nil => rfl
  | cons a rest ih =>
    simp only [sendPass, ih, List.filter_cons]
    by_cases h1 : some a = sender
    · subst h1
      simp
    · by_cases h2 : fails a
      · simp [h1, h2]
      · simp [h1, h2]

/-- Every frame delivered by `broadcast` is the `json.dumps`
serialization of the message argument. -/
theorem broadcast_sent_snd (s : ManagerState) (m : Json) (sender : Option Nat)
    (fails : Nat → Bool) :
    ((broadcast s m sender fails).sent.all fun p => p.2 == dumps m) = true := by
  unfold broadcast
  split
  · rfl
  · simp only [sendPass_eq, List.all_eq_true, List.mem_map, List.mem_filter]
    rintro p ⟨c, _, rfl⟩
    exact beq_self_eq_true (dumps m)

/-- Membership form of `broadcast_sent_snd` for pairs. -/
theorem broadcast_sent_mem (s : ManagerState) (m : Json) (sender : Option Nat)
    (fails : Nat → Bool) (c : Nat) (t : String)
    (h : (c, t) ∈ (broadcast s m sender fails).sent) : t = dumps m := by
  have hall := broadcast_sent_snd s m sender fails
  rw [List.all_eq_true] at hall
  have := hall _ h
  exact eq_of_beq this

/-- Applying `disconnect` only removes connections. -/
theorem disconnect_mem {s : ManagerState} {w c : Nat}
    (h : c ∈ (disconnect s w).active_connections) : c ∈ s.active_connections := by
  unfold disconnect at h
  split at h
  · exact List.mem_of_mem_erase h
  · exact h

/-- A connection absent from the registry stays absent under any fold of
`disconnect`. -/
theorem foldl_disconnect_not_mem {ds : List Nat} {s : ManagerState} {c : Nat}
    (h : c ∉ s.active_connections) :
    c ∉ (ds.foldl disconnect s).active_connections := by
  induction ds generalizing s with
  | nil => exact h
  | cons d rest ih =>
    simp only [List.foldl_cons]
    exact ih fun hc => h (disconnect_mem hc)

/-- Applying `disconnect` preserves duplicate-freedom of the registry. -/
theorem disconnect_nodup {s : ManagerState} (h : s.active_connections.Nodup)
    (w : Nat) : (disconnect s w).active_connections.Nodup := by
  unfold disconnect
  split
  · exact h.erase w
  · exact h

/-- On a duplicate-free registry, `disconnect` removes the connection
outright. -/
theorem disconnect_not_mem_self {s : ManagerState}
    (h : s.active_connections.Nodup) (w : Nat) :
    w ∉ (disconnect s w).active_connections := by
  unfold disconnect
  split
  · exact h.not_mem_erase
  · assumption

/-- Applying `disconnect` does not disturb other connections. -/
theorem mem_disconnect_of_ne {s : ManagerState} {w c : Nat} (hne : c ≠ w)
    (h : c ∈ s.active_connections) : c ∈ (disconnect s w).active_connections := by
  unfold disconnect
  split
  · exact (List.mem_erase_of_ne hne).2 h
  · exact h

/-- A registered connection that is in none of the removals survives a
fold of `disconnect`. -/
theorem foldl_disconnect_mem {ds : List Nat} {s : ManagerState} {c : Nat}
    (h : c ∈ s.active_connections) (hnd : c ∉ ds) :
    c ∈ (ds.foldl disconnect s).active_connections := by
  induction ds generalizing s with
  | nil => exact h
  | cons d rest ih =>
    simp only [List.foldl_cons]
    have hcd : c ≠ d := fun e => hnd (e ▸ List.mem_cons_self d rest)
    exact ih (mem_disconnect_of_ne hcd h) fun hc => hnd (List.mem_cons_of_mem _ hc)

/-- Starting from a duplicate-free registry, every connection in the
removal list is gone after the fold of `disconnect`. -/
theorem foldl_disconnect_removes {ds : List Nat} {s : ManagerState} {c : Nat}
    (hnd : s.active_connections.Nodup) (h : c ∈ ds) :
    c ∉ (ds.foldl disconnect s).active_connections := by
  induction ds generalizing s with
  | nil => cases h
  | cons d rest ih =>
    simp only [List.foldl_cons]
    rcases List.mem_cons.mp h with rfl | hc
    · exact foldl_disconnect_not_mem (disconnect_not_mem_self hnd c)
    · exact ih (disconnect_nodup hnd d) hc

/-- With no concurrent mutation, the broadcast loop visits the remaining
suffix of the list, in order, and leaves the list unchanged. -/
theorem runPassAux_no_ops (fuel : Nat) :
    ∀ (lst : List Nat) (idx : Nat) (visited : List Nat),
      lst.length ≤ idx + fuel →
      runPassAux fuel lst idx [] visited = (lst, visited ++ lst.drop idx) := by
  induction fuel with
  | zero =>
    intro lst idx visited hf
    have hdrop : lst.drop idx = [] :=
      List.drop_eq_nil_of_le (by omega)
    simp [runPassAux, hdrop]
  | succ fuel ih =>
    intro lst idx visited hf
    unfold runPassAux
    cases hg : lst.get? idx with
    | none =>
      have hlen : lst.length ≤ idx := List.get?_eq_none.mp hg
      have hdrop : lst.drop idx = [] := List.drop_eq_nil_of_le hlen
      simp [hdrop]
    | some c =>
      rw [List.get?_eq_getElem?] at hg
      obtain ⟨hlt, hc⟩ := List.getElem?_eq_some_iff.mp hg
      have hdrop : lst.drop idx = c :: lst.drop (idx + 1) := by
        rw [List.drop_eq_getElem_cons hlt, hc]
      simp only [List.headD_nil, List.tail_nil]
      have happly : applyOps lst [] = lst := rfl
      rw [happly, ih lst (idx + 1) (visited ++ [c]) (by omega), hdrop]
      simp

/-- Closed form of `broadcast` on a non-empty registry, from
`sendPass_eq`: deliveries and the post-loop removal fold. -/
theorem broadcast_eq (s : ManagerState) (m : Json) (sender : Option Nat)
    (fails : Nat → Bool) (hne : s.active_connections ≠ []) :
    broadcast s m sender fails =
      { sent := ((s.active_connections.filter fun c => some c ≠ sender ∧ fails c = false).map
                   fun c => (c, dumps m)),
        state := (s.active_connections.filter fun c => some c ≠ sender ∧ fails c = true).foldl
                   disconnect s } := by
  have h1 : broadcast s m sender fails =
      { sent := (sendPass sender fails (dumps m) s.active_connections).1,
        state := (sendPass sender fails (dumps m) s.active_connections).2.foldl disconnect s } := by
    unfold broadcast
    rw [if_neg hne]
  rw [h1, sendPass_eq]

/-! ### Claim theorems -/

/-- C10: broadcasting any message against an empty registry is a no-op:
it returns normally with no deliveries and an unchanged (empty) state,
for every message, sender and send-failure behaviour. -/
theorem C10_broadcast_empty_noop (m : Json) (sender : Option Nat)
    (fails : Nat → Bool) :
    broadcast { active_connections := [] } m sender fails =
      { sent := [], state := { active_connections := [] } } := rfl

/-- C7: on a duplicate-free registry (each live WebSocket handle is
registered once), `disconnect` is idempotent — removing a connection
twice yields the same state as removing it once — and removing an
absent connection is a no-op that leaves the state (hence the
membership count) unchanged. -/
theorem C7_unregister_idempotent (s : ManagerState) (w : Nat) :
    (s.active_connections.Nodup →
       disconnect (disconnect s w) w = disconnect s w) ∧
    (w ∉ s.active_connections → disconnect s w = s) := by
  constructor
  · intro hnd
    have h := disconnect_not_mem_self hnd w
    calc disconnect (disconnect s w) w
        = if w ∈ (disconnect s w).active_connections then
            ({ active_connections := (disconnect s w).active_connections.erase w } :
              ManagerState)
          else disconnect s w := rfl
      _ = disconnect s w := if_neg h
  · intro hw
    calc disconnect s w
        = if w ∈ s.active_connections then
            ({ active_connections := s.active_connections.erase w } : ManagerState)
          else s := rfl
      _ = s := if_neg hw

/-- Witness for C7 at a concrete registry. -/
theorem C7_unregister_idempotent_witness :
    (([1, 2] : List Nat).Nodup ∧
      disconnect (disconnect { active_connections := [1, 2] } 1) 1 =
        disconnect { active_connections := [1, 2] } 1) ∧
    ((5 : Nat) ∉ ([1, 2] : List Nat) ∧
      disconnect { active_connections := [1, 2] } 5 =
        { active_connections := [1, 2] }) :=
  ⟨⟨by decide, (C7_unregister_idempotent { active_connections := [1, 2] } 1).1 (by decide)⟩,
   ⟨by decide, (C7_unregister_idempotent { active_connections := [1, 2] } 5).2 (by decide)⟩⟩

/-- C9: the health query reports status `"healthy"` together with the
registry's membership count; in particular after registering three
distinct connections and unregistering one of them it reports
`active_connections` equal to 2.  (`health_check` is a pure function of
the manager state, so the query mutates nothing.) -/
theorem C9_health_reports_count (a b c w : Nat) (hw : w ∈ ([a, b, c] : List Nat))
    (_hnd : ([a, b, c] : List Nat).Nodup) :
    health_check (connect (connect (connect { active_connections := [] } a) b) c) =
      Json.obj [("status", Json.str "healthy"),
                ("active_connections", Json.num 3)] ∧
    health_check
        (disconnect (connect (connect (connect { active_connections := [] } a) b) c) w) =
      Json.obj [("status", Json.str "healthy"),
                ("active_connections", Json.num 2)] := by
  have hstate : connect (connect (connect { active_connections := [] } a) b) c =
      ({ active_connections := [a, b, c] } : ManagerState) := rfl
  constructor
  · rfl
  · rw [hstate]
    have hdis : disconnect { active_connections := [a, b, c] } w =
        { active_connections := ([a, b, c] : List Nat).erase w } := by
      calc disconnect { active_connections := [a, b, c] } w
          = if w ∈ ([a, b, c] : List Nat) then
              ({ active_connections := ([a, b, c] : List Nat).erase w } : ManagerState)
            else { active_connections := [a, b, c] } := rfl
        _ = _ := if_pos hw
    rw [hdis]
    unfold health_check
    rw [List.length_erase_of_mem hw]
    rfl

/-- Witness for C9 with connections 1, 2, 3 and removal of 2. -/
theorem C9_health_reports_count_witness :
    ((2 : Nat) ∈ ([1, 2, 3] : List Nat) ∧ ([1, 2, 3] : List Nat).Nodup) ∧
    (health_check (connect (connect (connect { active_connections := [] } 1) 2) 3) =
       Json.obj [("status", Json.str "healthy"),
                 ("active_connections", Json.num 3)] ∧
     health_check
         (disconnect (connect (connect (connect { active_connections := [] } 1) 2) 3) 2) =
       Json.obj [("status", Json.str "healthy"),
                 ("active_connections", Json.num 2)]) :=
  ⟨⟨by decide, by decide⟩, C9_health_reports_count 1 2 3 2 (by decide) (by decide)⟩

/-- C4: on a duplicate-free registry containing the origin, with every
send succeeding, one broadcast delivers the serialized event to exactly
the connections other than the origin (in registry order): N − 1
deliveries, none of them to the origin, and the registry is unchanged
when the call returns. -/
theorem C4_broadcast_reaches_all_but_origin (s : ManagerState) (m : Json) (w : Nat)
    (hnd : s.active_connections.Nodup) (hw : w ∈ s.active_connections) :
    (broadcast s m (some w) fun _ => false).sent =
      ((s.active_connections.filter fun c => c ≠ w).map fun c => (c, dumps m)) ∧
    (broadcast s m (some w) fun _ => false).sent.length =
      s.active_connections.length - 1 ∧
    (∀ t, (w, t) ∉ (broadcast s m (some w) fun _ => false).sent) ∧
    (broadcast s m (some w) fun _ => false).state = s := by
  have hne : s.active_connections ≠ [] := List.ne_nil_of_mem hw
  rw [broadcast_eq s m (some w) (fun _ => false) hne]
  dsimp only
  have hfeq : (s.active_connections.filter fun c => some c ≠ some w ∧ false = false) =
      s.active_connections.filter fun c => c ≠ w := by
    apply List.filter_congr
    intro c _
    by_cases hc : c = w <;> simp [hc]
  have hnil : (s.active_connections.filter fun c => some c ≠ some w ∧ false = true) = [] := by
    simp
  refine ⟨by rw [hfeq], ?_, ?_, ?_⟩
  · rw [hfeq, List.length_map]
    have h2 : (s.active_connections.filter fun c => c ≠ w) =
        s.active_connections.erase w := by
      rw [hnd.erase_eq_filter w]
      apply List.filter_congr
      intro c _
      by_cases hc : c = w <;> simp [hc]
    rw [h2, List.length_erase_of_mem hw]
  · intro t hmem
    rw [hfeq, List.mem_map] at hmem
    obtain ⟨c, hcf, heq⟩ := hmem
    rw [List.mem_filter] at hcf
    injection heq with h1 h2
    subst h1
    simp at hcf
  · rw [hnil]
    rfl

/-- Witness for C4 on the registry `[1, 2, 3]` with origin 2. -/
theorem C4_broadcast_reaches_all_but_origin_witness :
    (([1, 2, 3] : List Nat).Nodup ∧ (2 : Nat) ∈ ([1, 2, 3] : List Nat)) ∧
    ((broadcast { active_connections := [1, 2, 3] } (Json.num 5) (some 2)
        fun _ => false).sent =
      ((([1, 2, 3] : List Nat).filter fun c => c ≠ 2).map
        fun c => (c, dumps (Json.num 5))) ∧
     (broadcast { active_connections := [1, 2, 3] } (Json.num 5) (some 2)
        fun _ => false).sent.length = ([1, 2, 3] : List Nat).length - 1 ∧
     (∀ t, ((2 : Nat), t) ∉ (broadcast { active_connections := [1, 2, 3] } (Json.num 5)
        (some 2) fun _ => false).sent) ∧
     (broadcast { active_connections := [1, 2, 3] } (Json.num 5) (some 2)
        fun _ => false).state = { active_connections := [1, 2, 3] }) :=
  ⟨⟨by decide, by decide⟩,
   C4_broadcast_reaches_all_but_origin { active_connections := [1, 2, 3] }
     (Json.num 5) 2 (by decide) (by decide)⟩

/-- C5: on a duplicate-free registry, when the sends to some targets
fail, every other target still receives the serialized message (the
pass is not aborted), every failing target is gone from the registry
when `broadcast` returns (the removals are applied by the fold that
runs after the loop), and every non-failing target is still
registered. -/
theorem C5_send_failure_isolation (s : ManagerState) (m : Json) (w : Nat)
    (fails : Nat → Bool) (hnd : s.active_connections.Nodup) :
    (∀ c ∈ s.active_connections, c ≠ w → fails c = false →
       (c, dumps m) ∈ (broadcast s m (some w) fails).sent) ∧
    (∀ c ∈ s.active_connections, c ≠ w → fails c = true →
       c ∉ (broadcast s m (some w) fails).state.active_connections) ∧
    (∀ c ∈ s.active_connections, c ≠ w → fails c = false →
       c ∈ (broadcast s m (some w) fails).state.active_connections) := by
  refine ⟨?_, ?_, ?_⟩ <;> intro c hc hcw hfc <;>
    have hne : s.active_connections ≠ [] := List.ne_nil_of_mem hc <;>
    rw [broadcast_eq s m (some w) fails hne] <;> dsimp only
  · rw [List.mem_map]
    exact ⟨c, List.mem_filter.mpr ⟨hc, by simp [hcw, hfc]⟩, rfl⟩
  · exact foldl_disconnect_removes hnd (List.mem_filter.mpr ⟨hc, by simp [hcw, hfc]⟩)
  · refine foldl_disconnect_mem hc ?_
    intro hmem
    rw [List.mem_filter] at hmem
    simp [hfc] at hmem

/-- Witness for C5 on the registry `[1, 2, 3]` with origin 2 and the
send to connection 3 failing. -/
theorem C5_send_failure_isolation_witness :
    ([1, 2, 3] : List Nat).Nodup ∧
    ((∀ c ∈ ([1, 2, 3] : List Nat), c ≠ 2 → (fun x : Nat => x == 3) c = false →
        (c, dumps (Json.num 7)) ∈ (broadcast { active_connections := [1, 2, 3] }
          (Json.num 7) (some 2) fun x => x == 3).sent) ∧
     (∀ c ∈ ([1, 2, 3] : List Nat), c ≠ 2 → (fun x : Nat => x == 3) c = true →
        c ∉ (broadcast { active_connections := [1, 2, 3] }
          (Json.num 7) (some 2) fun x => x == 3).state.active_connections) ∧
     (∀ c ∈ ([1, 2, 3] : List Nat), c ≠ 2 → (fun x : Nat => x == 3) c = false →
        c ∈ (broadcast { active_connections := [1, 2, 3] }
          (Json.num 7) (some 2) fun x => x == 3).state.active_connections)) :=
  ⟨by decide,
   C5_send_failure_isolation { active_connections := [1, 2, 3] } (Json.num 7) 2
     (fun x => x == 3) (by decide)⟩

/-- C1: counterexample — the `/ws` endpoint does not relay the raw
frame byte-for-byte.  A compact frame parses and validates, yet the
peer receives the `json.dumps` re-serialization of the parsed value
(with the default `", "` and `": "` separators), which differs from the
received text. -/
theorem C1_counterexample :
    loads rawCompactFrame = some parsedCompactFrame ∧
    (validateDrawingAction parsedCompactFrame).isSome = true ∧
    (websocket_endpoint_step { active_connections := [1, 2] } 1 rawCompactFrame
       fun _ => false).sent = [(2, dumps parsedCompactFrame)] ∧
    dumps parsedCompactFrame ≠ rawCompactFrame :=
  ⟨rfl, rfl, rfl, by decide⟩

/-- C1 (amended): for every inbound frame that parses and validates,
every frame the `/ws` endpoint delivers to a peer is the `json.dumps`
re-serialization of the parsed value — the parsed payload's field set
and order are preserved (extra fields included), but the text is not
necessarily byte-identical to the raw frame. -/
theorem C1_broadcast_reserializes (s : ManagerState) (origin : Nat)
    (raw : String) (fails : Nat → Bool) (j : Json) (hp : loads raw = some j)
    (hv : (validateDrawingAction j).isSome = true) :
    ((websocket_endpoint_step s origin raw fails).sent.all
       fun p => p.2 == dumps j) = true := by
  unfold websocket_endpoint_step
  rw [hp]
  dsimp only
  obtain ⟨a, ha⟩ := Option.isSome_iff_exists.mp hv
  rw [ha]
  exact broadcast_sent_snd s j (some origin) fails

/-- Witness for C1 (amended) on the compact frame. -/
theorem C1_broadcast_reserializes_witness :
    (loads rawCompactFrame = some parsedCompactFrame ∧
     (validateDrawingAction parsedCompactFrame).isSome = true) ∧
    ((websocket_endpoint_step { active_connections := [1, 2] } 1 rawCompactFrame
        fun _ => false).sent.all fun p => p.2 == dumps parsedCompactFrame) = true :=
  ⟨⟨rfl, rfl⟩,
   C1_broadcast_reserializes { active_connections := [1, 2] } 1 rawCompactFrame
     (fun _ => false) parsedCompactFrame rfl rfl⟩

/-- C2: counterexample — on the `/ws/draw` endpoint a non-parseable
frame produces zero error responses (the handler only prints a console
warning), not exactly one, so the claim fails for that endpoint. -/
theorem C2_counterexample :
    loads "not json" = none ∧
    websocket_draw_step { active_connections := [1, 2] } 1 "not json"
        (fun _ => false) =
      { toOrigin := [], sent := [], state := { active_connections := [1, 2] } } :=
  ⟨rfl, rfl⟩

/-- C2 (amended): for every connection and every non-parseable text
frame, the `/ws` endpoint sends exactly one error frame
(`json.dumps` of the object with `"error"` mapped to
`"Invalid JSON format"`) back to the origin, while the `/ws/draw`
endpoint sends none; neither endpoint broadcasts anything or changes
the registry, so the origin stays connected. -/
theorem C2_parse_failure_behaviour (s : ManagerState) (origin : Nat)
    (raw : String) (fails : Nat → Bool) (h : loads raw = none) :
    websocket_endpoint_step s origin raw fails =
      { toOrigin := [errorInvalidJSON], sent := [], state := s } ∧
    websocket_draw_step s origin raw fails =
      { toOrigin := [], sent := [], state := s } := by
  unfold websocket_endpoint_step websocket_draw_step
  rw [h]
  exact ⟨rfl, rfl⟩

/-- Witness for C2 (amended) on the frame `"oops"`. -/
theorem C2_parse_failure_behaviour_witness :
    loads "oops" = none ∧
    (websocket_endpoint_step { active_connections := [1, 2] } 1 "oops"
        (fun _ => false) =
      { toOrigin := [errorInvalidJSON], sent := [],
        state := { active_connections := [1, 2] } } ∧
     websocket_draw_step { active_connections := [1, 2] } 1 "oops"
        (fun _ => false) =
      { toOrigin := [], sent := [], state := { active_connections := [1, 2] } }) :=
  ⟨rfl, C2_parse_failure_behaviour { active_connections := [1, 2] } 1 "oops"
    (fun _ => false) rfl⟩

/-- C3: counterexample — the `/ws/draw` endpoint performs no schema
validation: a parsed frame with no `timestamp` fails the
`DrawingAction` check, yet `/ws/draw` broadcasts it to the peer and
sends no error to the origin, so the claim fails for that endpoint. -/
theorem C3_counterexample :
    loads rawNoTimestamp = some parsedNoTimestamp ∧
    validateDrawingAction parsedNoTimestamp = none ∧
    websocket_draw_step { active_connections := [1, 2] } 1 rawNoTimestamp
        (fun _ => false) =
      { toOrigin := [], sent := [(2, dumps parsedNoTimestamp)],
        state := { active_connections := [1, 2] } } :=
  ⟨rfl, rfl, rfl⟩

/-- C3 (amended): a parsed payload that fails the `DrawingAction`
schema check makes the `/ws` endpoint reply `json.dumps` of the object
with `"error"` mapped to `"Error processing drawing data"` to the
origin only, with no broadcast and no registry change; the `/ws/draw`
endpoint has no schema check and broadcasts whatever parses. -/
theorem C3_schema_failure_behaviour (s : ManagerState) (origin : Nat)
    (raw : String) (fails : Nat → Bool) (j : Json) (hp : loads raw = some j)
    (hv : validateDrawingAction j = none) :
    websocket_endpoint_step s origin raw fails =
      { toOrigin := [errorProcessing], sent := [], state := s } ∧
    websocket_draw_step s origin raw fails =
      { toOrigin := [],
        sent := (broadcast s j (some origin) fails).sent,
        state := (broadcast s j (some origin) fails).state } := by
  unfold websocket_endpoint_step websocket_draw_step
  rw [hp]
  dsimp only
  rw [hv]
  exact ⟨rfl, rfl⟩

/-- Witness for C3 (amended) on the timestamp-less frame. -/
theorem C3_schema_failure_behaviour_witness :
    (loads rawNoTimestamp = some parsedNoTimestamp ∧
     validateDrawingAction parsedNoTimestamp = none) ∧
    (websocket_endpoint_step { active_connections := [1, 2] } 1 rawNoTimestamp
        (fun _ => false) =
      { toOrigin := [errorProcessing], sent := [],
        state := { active_connections := [1, 2] } } ∧
     websocket_draw_step { active_connections := [1, 2] } 1 rawNoTimestamp
        (fun _ => false) =
      { toOrigin := [],
        sent := (broadcast { active_connections := [1, 2] } parsedNoTimestamp
                   (some 1) fun _ => false).sent,
        state := (broadcast { active_connections := [1, 2] } parsedNoTimestamp
                   (some 1) fun _ => false).state }) :=
  ⟨⟨rfl, rfl⟩,
   C3_schema_failure_behaviour { active_connections := [1, 2] } 1 rawNoTimestamp
     (fun _ => false) parsedNoTimestamp rfl rfl⟩

/-- C6: counterexample — the broadcast loop iterates the shared live
list, not a point-in-time snapshot: starting from registry `[1, 2, 3]`,
if connection 1 is unregistered by another coroutine while the send to
connection 2 is awaited, the loop ends after visiting `[1, 2]`;
connection 3 is registered at the start and still registered at the end
of the pass, yet the pass never visits it. -/
theorem C6_counterexample :
    runPass [1, 2, 3] [[], [RegOp.remove 1]] = ([2, 3], [1, 2]) ∧
    (3 : Nat) ∈ ([1, 2, 3] : List Nat) ∧ (3 : Nat) ∈ ([2, 3] : List Nat) ∧
    (3 : Nat) ∉ ([1, 2] : List Nat) :=
  ⟨rfl, by decide, by decide, by decide⟩

/-- C6 (amended): the pass never aborts, and absent concurrent mutation
it visits exactly the start-of-pass registry, in order, leaving the
list unchanged; only a pass overlapping a concurrent unregister can
skip a still-registered connection, as the counterexample shows. -/
theorem C6_no_interference_snapshot (lst : List Nat) :
    runPass lst [] = (lst, lst) := by
  unfold runPass
  rw [runPassAux_no_ops (lst.length + opsLen [] + 1) lst 0 [] (by omega)]
  simp

/-- C8: the schema check accepts a payload omitting `color` and/or
`lineWidth` and fills the fixed defaults `"#000000"` and `2` in the
validated value; a payload omitting `timestamp` is rejected; and the
frame the `/ws` endpoint broadcasts is always the serialization of the
parsed payload, never of the defaulted validated value. -/
theorem C8_lenient_defaults (fields : List (String × Json)) :
    (∀ a, getField fields "color" = none → getField fields "lineWidth" = none →
       validateDrawingAction (Json.obj fields) = some a →
       a.color = "#000000" ∧ a.lineWidth = 2) ∧
    (getField fields "timestamp" = none →
       validateDrawingAction (Json.obj fields) = none) ∧
    (∀ (s : ManagerState) (origin : Nat) (raw : String) (fails : Nat → Bool)
       (j : Json), loads raw = some j → (validateDrawingAction j).isSome = true →
       ((websocket_endpoint_step s origin raw fails).sent.all
          fun p => p.2 == dumps j) = true) := by
  refine ⟨?_, ?_, ?_⟩
  · intro a hc hlw hv
    simp only [validateDrawingAction] at hv
    rw [hc, hlw] at hv
    simp only [optStrField, optIntField, Option.some_bind,
      Option.bind_eq_some, Option.some.injEq] at hv
    obtain ⟨t, _, x, _, y, _, px, _, py, _, ts, _, heq⟩ := hv
    subst heq
    exact ⟨rfl, rfl⟩
  · intro hts
    simp only [validateDrawingAction]
    rw [hts]
    cases reqStr (getField fields "type") with
    | none => rfl
    | some t =>
      cases reqNum (getField fields "x") with
      | none => rfl
      | some x =>
        cases reqNum (getField fields "y") with
        | none => rfl
        | some y =>
          cases optNumField (getField fields "prevX") with
          | none => rfl
          | some px =>
            cases optNumField (getField fields "prevY") with
            | none => rfl
            | some py =>
              cases optStrField "#000000" (getField fields "color") with
              | none => rfl
              | some c =>
                cases optIntField 2 (getField fields "lineWidth") with
                | none => rfl
                | some lw => rfl
  · intro s origin raw fails j hp hv
    unfold websocket_endpoint_step
    rw [hp]
    dsimp only
    obtain ⟨a, ha⟩ := Option.isSome_iff_exists.mp hv
    rw [ha]
    exact broadcast_sent_snd s j (some origin) fails

/-- Witness for C8 at concrete payloads: the style-less payload
validates with the defaults, the timestamp-less payload is rejected,
and the style-less compact frame is broadcast as the serialization of
its parsed value. -/
theorem C8_lenient_defaults_witness :
    (getField fieldsNoStyle "color" = none ∧
     getField fieldsNoStyle "lineWidth" = none ∧
     validateDrawingAction (Json.obj fieldsNoStyle) =
       some { type := "draw", x := 1, y := 2, prevX := none, prevY := none,
              color := "#000000", lineWidth := 2, timestamp := 3 } ∧
     ({ type := "draw", x := 1, y := 2, prevX := none, prevY := none,
        color := "#000000", lineWidth := 2,
        timestamp := 3 } : DrawingAction).color = "#000000" ∧
     ({ type := "draw", x := 1, y := 2, prevX := none, prevY := none,
        color := "#000000", lineWidth := 2,
        timestamp := 3 } : DrawingAction).lineWidth = 2) ∧
    (getField fieldsNoTimestamp "timestamp" = none ∧
     validateDrawingAction (Json.obj fieldsNoTimestamp) = none) ∧
    (loads rawCompactFrame = some parsedCompactFrame ∧
     (validateDrawingAction parsedCompactFrame).isSome = true ∧
     ((websocket_endpoint_step { active_connections := [1, 2] } 1 rawCompactFrame
         fun _ => false).sent.all fun p => p.2 == dumps parsedCompactFrame) = true) :=
  ⟨⟨rfl, rfl, rfl,
    ((C8_lenient_defaults fieldsNoStyle).1 _ rfl rfl rfl).1,
    ((C8_lenient_defaults fieldsNoStyle).1 _ rfl rfl rfl).2⟩,
   ⟨rfl, (C8_lenient_defaults fieldsNoTimestamp).2.1 rfl⟩,
   ⟨rfl, rfl,
    (C8_lenient_defaults fieldsNoStyle).2.2 { active_connections := [1, 2] } 1
      rawCompactFrame (fun _ => false) parsedCompactFrame rfl rfl⟩⟩

end Diagram
